import Mathlib

/-!
Verification development for the Laser_Scan_Micrometer repository.

Shallow embedding conventions:
* The Python code routes every precision-sensitive numeric step through
  `Decimal(str(value))` (exact decimal arithmetic on the shortest decimal
  representation of the float).  We embed numeric values as exact rationals
  (`ℚ`); decimal literals such as `0.008` denote the exact rational
  `8/1000`.
* Python `None`/optional values become `Option`; a function that can hand
  back "no measurement" returns `Option Measurement`.
* Stateful components (the CSV logger) are embedded as explicit state
  passing: the file contents are a list of rows, the running index a `ℕ`.
* Wall-clock timestamps are an external input, passed explicitly.
* Python string rendering of numbers (`f"{v:.3f}"`, `repr(float)`) is
  embedded by `fmtFixed` (fixed-point, round-half-even as CPython format
  does) and `numRepr` (an injective rendering standing in for float repr).
-/

namespace LSM

/-! ## src/lsm6200/processing.py -/

/-- Embeds the `ProcessedValue` dataclass: the three staged values. -/
structure ProcessedValue where
  raw_5dp : ℚ
  cut_4dp : ℚ
  rounded_3dp : ℚ
deriving DecidableEq, Repr

/-- Embeds `truncate_to_decimals(value, decimals)`: sign extracted first, the
magnitude is scaled by `10^decimals`, rounded toward zero
(`ROUND_DOWN`), unscaled, and the sign reapplied. -/
def truncate_to_decimals (value : ℚ) (decimals : ℕ) : ℚ :=
  let sign : ℚ := if 0 ≤ value then 1 else -1
  let factor : ℚ := 10 ^ decimals
  ((⌊|value| * factor⌋ : ℚ) / factor) * sign

/-- Embeds `round_half_up(value, decimals)`: `Decimal.quantize` with
`ROUND_HALF_UP` — round to nearest multiple of `10^-decimals`, exact
ties away from zero. -/
def round_half_up (value : ℚ) (decimals : ℕ) : ℚ :=
  let q : ℚ := 10 ^ decimals
  if 0 ≤ value then (⌊value * q + 1 / 2⌋ : ℚ) / q
  else -((⌊(-value) * q + 1 / 2⌋ : ℚ) / q)

/-- Round a rational to the nearest integer, ties to even — the rounding
CPython's fixed-point float formatting performs. -/
def roundHalfEvenInt (x : ℚ) : ℤ :=
  if x - ⌊x⌋ < 1 / 2 then ⌊x⌋
  else if 1 / 2 < x - ⌊x⌋ then ⌊x⌋ + 1
  else if ⌊x⌋ % 2 = 0 then ⌊x⌋ else ⌊x⌋ + 1

/-- Embeds `float(f"{value:.decimals f}")`: fix a value at `decimals`
decimal places (round half-even on the magnitude, sign reapplied). -/
def format_fixed (value : ℚ) (decimals : ℕ) : ℚ :=
  let f : ℚ := 10 ^ decimals
  if 0 ≤ value then (roundHalfEvenInt (value * f) : ℚ) / f
  else -((roundHalfEvenInt (-value * f) : ℚ) / f)

/-- Embeds `process_value(raw)`: 5dp fix, then truncate to 4dp, then half-up
round to 3dp — each stage fed the previous stage's output. -/
def process_value (raw : ℚ) : ProcessedValue :=
  let raw_5dp := format_fixed raw 5
  let cut_4dp := truncate_to_decimals raw_5dp 4
  let rounded_3dp := round_half_up cut_4dp 3
  ⟨raw_5dp, cut_4dp, rounded_3dp⟩

/-- Embeds the `Category` dataclass: code, descriptive name, display color. -/
structure Category where
  code : ℕ
  name : String
  color : String
deriving DecidableEq, Repr, Inhabited

/-- Embeds `categories_relative()`: the fixed six-bin enumeration. -/
def categories_relative : List Category :=
  [⟨1, "超過上限公差", "#d32f2f"⟩,
   ⟨2, "標準+0.005", "#ef6c00"⟩,
   ⟨3, "標準±0.002", "#388e3c"⟩,
   ⟨4, "標準-0.005", "#1976d2"⟩,
   ⟨5, "標準-0.010", "#7b1fa2"⟩,
   ⟨6, "超過下限公差", "#5d4037"⟩]

/-- Embeds the `CategoryResult` dataclass. -/
structure CategoryResult where
  category : Category
  reason : String
deriving DecidableEq, Repr

/-- Render a rational fixed at `d` decimal places, embedding Python's
`f"{q:.df}"` (round half-even; the sign of a negative value that rounds
to zero is not modelled). -/
def fmtFixed (q : ℚ) (d : ℕ) : String :=
  let scaled : ℤ :=
    if 0 ≤ q then roundHalfEvenInt (q * 10 ^ d)
    else -(roundHalfEvenInt (-q * 10 ^ d))
  let n : ℕ := scaled.natAbs
  let ip : ℕ := n / 10 ^ d
  let fp : ℕ := n % 10 ^ d
  let fpStr := toString fp
  let pad := String.mk (List.replicate (d - fpStr.length) '0')
  (if scaled < 0 then "-" else "") ++ toString ip ++
    (if d = 0 then "" else "." ++ pad ++ fpStr)

/-- Embeds `classify_six_bins(value_3dp, standard)` (default standard
0.110): six priority-ordered band tests, first match wins.  When no
band matches, the source builds `centers`, a dict literal keyed by
`Category` instances, and takes the `min` by distance; but `Category`
is a plain mutable `@dataclass` (`eq=True`, `frozen=False` defaults),
whose instances are unhashable (`__hash__` is set to `None`), so the
dict construction raises TypeError before `min` ever runs.  The gap
branch is therefore an error path, embedded as `Except.error` with the
interpreter's message. -/
def classify_six_bins (value_3dp : ℚ) (standard : ℚ) : Except String CategoryResult :=
  let cats := categories_relative
  let hi_limit := standard + 0.008
  let bin2_lo := standard + 0.003
  let bin2_hi := standard + 0.007
  let bin3_lo := standard - 0.002
  let bin3_hi := standard + 0.002
  let bin4_lo := standard - 0.007
  let bin4_hi := standard - 0.003
  let bin5_lo := standard - 0.012
  let bin5_hi := standard - 0.008
  let lo_limit := standard - 0.013
  let v := value_3dp
  if v ≥ hi_limit then
    Except.ok ⟨cats[0]!, fmtFixed v 3 ++ " >= " ++ fmtFixed hi_limit 3⟩
  else if bin2_lo ≤ v ∧ v ≤ bin2_hi then
    Except.ok ⟨cats[1]!, fmtFixed bin2_lo 3 ++ " <= " ++ fmtFixed v 3 ++ " <= " ++ fmtFixed bin2_hi 3⟩
  else if bin3_lo ≤ v ∧ v ≤ bin3_hi then
    Except.ok ⟨cats[2]!, fmtFixed bin3_lo 3 ++ " <= " ++ fmtFixed v 3 ++ " <= " ++ fmtFixed bin3_hi 3⟩
  else if bin4_lo ≤ v ∧ v ≤ bin4_hi then
    Except.ok ⟨cats[3]!, fmtFixed bin4_lo 3 ++ " <= " ++ fmtFixed v 3 ++ " <= " ++ fmtFixed bin4_hi 3⟩
  else if bin5_lo ≤ v ∧ v ≤ bin5_hi then
    Except.ok ⟨cats[4]!, fmtFixed bin5_lo 3 ++ " <= " ++ fmtFixed v 3 ++ " <= " ++ fmtFixed bin5_hi 3⟩
  else if v ≤ lo_limit then
    Except.ok ⟨cats[5]!, fmtFixed v 3 ++ " <= " ++ fmtFixed lo_limit 3⟩
  else
    Except.error "TypeError: unhashable type: Category"

/-! ## src/lsm6200/classifier.py and src/lsm6200/config.py -/

/-- Embeds the `ThresholdRule` dataclass (defaults `between`, 0.0, 10.0). -/
structure ThresholdRule where
  operator : String
  low : ℚ
  high : ℚ
deriving DecidableEq, Repr

/-- Embeds the `ClassificationConfig` dataclass (defaults mode `threshold`, units `mm`). -/
structure ClassificationConfig where
  mode : String
  units : String
  threshold : ThresholdRule
deriving DecidableEq, Repr

/-- Embeds the `ClassificationResult` dataclass: verdict PASS/FAIL/UNKNOWN/NONE plus
an optional reason. -/
structure ClassificationResult where
  verdict : String
  reason : Option String
deriving DecidableEq, Repr

/-- Injective stand-in for Python's `repr(float)` used inside f-string
comparison expressions; only the branch structure of `classify_value`
matters to the claims, not this rendering. -/
def numRepr (q : ℚ) : String :=
  toString q.num ++ (if q.den = 1 then "" else "/" ++ toString q.den)

/-- Embeds `classify_value(value, cfg)`: the `mode == "none"` test comes first,
then the `value is None` test, then the threshold operator chain. -/
def classify_value (value : Option ℚ) (cfg : ClassificationConfig) : ClassificationResult :=
  if cfg.mode = "none" then ⟨"NONE", some "Classification disabled"⟩
  else match value with
  | none => ⟨"UNKNOWN", some "No numeric value parsed"⟩
  | some v =>
    if cfg.mode = "threshold" then
      let rule := cfg.threshold
      let op := rule.operator.toLower
      let lo := rule.low
      let hi := rule.high
      if op = "lt" then
        ⟨if v < lo then "PASS" else "FAIL", some (numRepr v ++ " < " ++ numRepr lo)⟩
      else if op = "le" then
        ⟨if v ≤ lo then "PASS" else "FAIL", some (numRepr v ++ " <= " ++ numRepr lo)⟩
      else if op = "gt" then
        ⟨if v > hi then "PASS" else "FAIL", some (numRepr v ++ " > " ++ numRepr hi)⟩
      else if op = "ge" then
        ⟨if v ≥ hi then "PASS" else "FAIL", some (numRepr v ++ " >= " ++ numRepr hi)⟩
      else if op = "eq" then
        ⟨if v = lo then "PASS" else "FAIL", some (numRepr v ++ " == " ++ numRepr lo)⟩
      else if op = "between" then
        ⟨if lo ≤ v ∧ v ≤ hi then "PASS" else "FAIL",
         some (numRepr lo ++ " <= " ++ numRepr v ++ " <= " ++ numRepr hi)⟩
      else ⟨"UNKNOWN", some ("Unknown operator: " ++ rule.operator)⟩
    else ⟨"UNKNOWN", some ("Unknown mode: " ++ cfg.mode)⟩

/-! ## src/lsm6200/logging_utils.py

The file contents are embedded as a list of rows; the wall-clock
timestamp produced by `_now` is an explicit argument. -/

/-- One line of the CSV file: the header or a data row (index,
timestamp, six category cells, unit, reason, raw). -/
inductive CsvRow where
  | header : CsvRow
  | data (idx : ℕ) (ts : String) (cats : List String)
      (unit : String) (reason : String) (raw : String) : CsvRow
deriving DecidableEq, Repr

/-- The logger's mutable state inside the context manager: the file
contents so far and the running `_index`. -/
structure CsvLoggerState where
  lines : List CsvRow
  index : ℕ
deriving DecidableEq, Repr

namespace CsvLogger

/-- The method surface of the `CsvLogger` class, as defined in
`logging_utils.py`; Python attribute lookup on an instance fails with
`AttributeError` for any name not in this list. -/
def methods : List String :=
  ["__init__", "__enter__", "__exit__", "log_categorized"]

/-- Dynamic method lookup on a `CsvLogger` instance: raises
(`Except.error`) exactly when the attribute is not defined. -/
def lookupMethod (name : String) : Except String Unit :=
  if name ∈ methods then Except.ok () else Except.error ("AttributeError: " ++ name)

/-- The method name invoked on the logger by the read loop in
`run.py` (`csvlog.log(...)`). -/
def runLoopCallName : String := "log"

/-- The method name invoked on the logger by `SerialWorker.start` in
`gui.py` (`csvlog.log(...)`). -/
def guiWorkerCallName : String := "log"

/-- Embeds `__enter__`: open in append or write mode (write truncates).  Write
the header and reset the index to 1 when the mode is write or the file
is empty; otherwise resume the index from the existing line count minus
one for the header, plus one. -/
def enter (append : Bool) (disk : List CsvRow) : CsvLoggerState :=
  let contents := if append then disk else []
  if append = false ∨ contents.length = 0 then
    ⟨contents ++ [CsvRow.header], 1⟩
  else
    ⟨contents, (contents.length - 1) + 1⟩

/-- Embeds `log_categorized(value_3dp, category_code, unit, reason, raw)`:
place `f"{value_3dp:.3f}"` into the column matching `category_code`
(1–6) when the value is present, leave the other five blank, append the
row at the current index and advance the index. -/
def log_categorized (st : CsvLoggerState) (value_3dp : Option ℚ) (category_code : ℕ)
    (unit : String) (reason : String) (raw : String) (ts : String) : CsvLoggerState :=
  let blank : List String := ["", "", "", "", "", ""]
  let cats : List String :=
    match value_3dp with
    | some v =>
      if 1 ≤ category_code ∧ category_code ≤ 6 then
        blank.set (category_code - 1) (fmtFixed v 3)
      else blank
    | none => blank
  ⟨st.lines ++ [CsvRow.data st.index ts cats unit reason raw], st.index + 1⟩

end CsvLogger

/-- The indices of the data rows of a CSV file, in file order. -/
def dataIndices : List CsvRow → List ℕ
  | [] => []
  | CsvRow.header :: rs => dataIndices rs
  | CsvRow.data i _ _ _ _ _ :: rs => i :: dataIndices rs

/-- How many header lines a CSV file contains. -/
def headerCount : List CsvRow → ℕ
  | [] => 0
  | CsvRow.header :: rs => headerCount rs + 1
  | CsvRow.data _ _ _ _ _ _ :: rs => headerCount rs

/-! ## src/lsm6200/protocols/mitutoyo6200.py -/

/-- Embeds the `Measurement` dataclass. -/
structure Measurement where
  raw : String
  value : Option ℚ
  unit : Option String
deriving DecidableEq, Repr

/-- The Python `\s` class on the ASCII range (str.strip also removes
these; wider Unicode whitespace is not exercised by the device). -/
def isSpaceC (c : Char) : Bool :=
  c = ' ' ∨ c = '\t' ∨ c = '\n' ∨ c = '\r' ∨ c = '\x0b' ∨ c = '\x0c'

/-- Embeds `str.strip()`: drop leading and trailing whitespace. -/
def pyStrip (cs : List Char) : List Char :=
  ((cs.dropWhile isSpaceC).reverse.dropWhile isSpaceC).reverse

/-- Decimal digit test (`\d` on ASCII input). -/
def isDigitC (c : Char) : Bool := '0' ≤ c ∧ c ≤ '9'

/-- The optional fractional part `(?:\.\d+)?` of `NUMBER_RE`, matched
greedily at the given position: a dot followed by at least one digit. -/
def fracTail : List Char → List Char
  | '.' :: ds =>
    let f := ds.takeWhile isDigitC
    if f = [] then [] else '.' :: f
  | _ => []

/-- Match `NUMBER_RE = [-+]?\d+(?:\.\d+)?` anchored at the head of the
list (greedy, as the regex engine matches): an optional sign only
counts when digits follow it. -/
def matchNumAt : List Char → Option (List Char)
  | [] => none
  | c :: cs =>
    if c = '+' ∨ c = '-' then
      let ds := cs.takeWhile isDigitC
      if ds = [] then none
      else some (c :: ds ++ fracTail (cs.dropWhile isDigitC))
    else
      let ds := (c :: cs).takeWhile isDigitC
      if ds = [] then none
      else some (ds ++ fracTail ((c :: cs).dropWhile isDigitC))

/-- Embeds `NUMBER_RE.search`: leftmost match — try each start position from
the left and return the first (greedy) match. -/
def numSearch : List Char → Option (List Char)
  | [] => none
  | c :: cs =>
    match matchNumAt (c :: cs) with
    | some m => some m
    | none => numSearch cs

/-- Digit string to natural number. -/
def digitsToNat (ds : List Char) : ℕ :=
  ds.foldl (fun a c => a * 10 + (c.toNat - 48)) 0

/-- Embeds `float(...)` applied to a string matched by `NUMBER_RE`: such a
token is always a valid float literal, so the `ValueError` guard in the
source is unreachable and the parse is total. -/
def tokenToRat (tok : List Char) : ℚ :=
  let signed : ℚ × List Char :=
    match tok with
    | '-' :: r => (-1, r)
    | '+' :: r => (1, r)
    | r => (1, r)
  let ip := signed.2.takeWhile isDigitC
  let rest := signed.2.dropWhile isDigitC
  let fp := match rest with
    | '.' :: f => f
    | _ => []
  signed.1 * ((digitsToNat ip : ℚ) + (digitsToNat fp : ℚ) / 10 ^ fp.length)

/-- A character of the trailing-unit class `[a-zA-Zμ]`. -/
def isUnitChar (c : Char) : Bool :=
  ('a' ≤ c ∧ c ≤ 'z') ∨ ('A' ≤ c ∧ c ≤ 'Z') ∨ c = 'μ'

/-- Embeds `re.search(r"([a-zA-Zμ]+)\s*$", text)`: a run of unit characters
followed only by whitespace up to the end of the text. -/
def trailingUnit (cs : List Char) : Option (List Char) :=
  let r := cs.reverse.dropWhile isSpaceC
  let u := r.takeWhile isUnitChar
  if u = [] then none else some u.reverse

/-- The UTF-8 replacement character U+FFFD emitted by
`bytes.decode("utf-8", errors="replace")` for undecodable bytes. -/
def replChar : Char := Char.ofNat 0xFFFD

/-- Continuation byte test (`0b10xxxxxx`). -/
def isContByte (b : ℕ) : Bool := 0x80 ≤ b ∧ b ≤ 0xBF

/-- Fuel-driven UTF-8 decoding with replacement: each step consumes at
least one byte; malformed sequences produce U+FFFD and resynchronise.
This embeds `line.decode("utf-8", errors="replace")`, which never
raises (so the `except: return None` around it in the source is dead
code); the exact number of replacement characters per malformed
sequence is not load-bearing for any claim. -/
def utf8Go : ℕ → List ℕ → List Char
  | 0, _ => []
  | _, [] => []
  | fuel + 1, b :: bs =>
    if b ≤ 0x7F then Char.ofNat b :: utf8Go fuel bs
    else if 0xC2 ≤ b ∧ b ≤ 0xDF then
      match bs with
      | b2 :: bs2 =>
        if isContByte b2 then
          Char.ofNat ((b - 0xC0) * 0x40 + (b2 - 0x80)) :: utf8Go fuel bs2
        else replChar :: utf8Go fuel bs
      | [] => [replChar]
    else if 0xE0 ≤ b ∧ b ≤ 0xEF then
      match bs with
      | b2 :: b3 :: bs3 =>
        if isContByte b2 ∧ isContByte b3 then
          let cp := (b - 0xE0) * 0x1000 + (b2 - 0x80) * 0x40 + (b3 - 0x80)
          if 0x800 ≤ cp ∧ ¬(0xD800 ≤ cp ∧ cp ≤ 0xDFFF) then
            Char.ofNat cp :: utf8Go fuel bs3
          else replChar :: utf8Go fuel bs
        else replChar :: utf8Go fuel bs
      | _ => [replChar]
    else if 0xF0 ≤ b ∧ b ≤ 0xF4 then
      match bs with
      | b2 :: b3 :: b4 :: bs4 =>
        if isContByte b2 ∧ isContByte b3 ∧ isContByte b4 then
          let cp := (b - 0xF0) * 0x40000 + (b2 - 0x80) * 0x1000 +
            (b3 - 0x80) * 0x40 + (b4 - 0x80)
          if 0x10000 ≤ cp ∧ cp ≤ 0x10FFFF then
            Char.ofNat cp :: utf8Go fuel bs4
          else replChar :: utf8Go fuel bs
        else replChar :: utf8Go fuel bs
      | _ => [replChar]
    else replChar :: utf8Go fuel bs

/-- Embeds `bytes.decode("utf-8", errors="replace")`: total by construction. -/
def utf8DecodeReplace (bs : List ℕ) : List Char :=
  utf8Go bs.length bs

/-- The `line: bytes | str` input of `parse_line`. -/
inductive Line where
  | bytes (bs : List ℕ) : Line
  | text (s : String) : Line

/-- The trimmed text `parse_line` works on: bytes are decoded leniently
first (`isinstance(line, bytes)` branch), then `strip()` is applied. -/
def lineText : Line → List Char
  | Line.bytes bs => pyStrip (utf8DecodeReplace bs)
  | Line.text s => pyStrip s.data

/-- Embeds `Mitutoyo6200Parser.parse_line(line)` with the constructor argument
`expected_unit` made explicit.  Empty trimmed text yields no
Measurement; a text without a numeral yields `value = None`,
`unit = None`, raw preserved; otherwise the first numeral is parsed and
the trailing unit (or the expected unit) attached. -/
def parse_line (expected_unit : Option String) (line : Line) : Option Measurement :=
  let text := lineText line
  if text = [] then none
  else
    match numSearch text with
    | none => some ⟨String.mk text, none, none⟩
    | some tok =>
      let value : Option ℚ := some (tokenToRat tok)
      let unit : Option String :=
        match trailingUnit text with
        | some u => some (String.mk u)
        | none => expected_unit
      some ⟨String.mk text, value, unit⟩

/-! ## Theorems -/

/-- C3: `process_value` computes its three fields in the fixed
two-stage order — `raw_5dp` is the input fixed at 5 decimal places,
`cut_4dp` truncates `raw_5dp` (not the input) at 4 places and
`rounded_3dp` half-up rounds `cut_4dp` (not the input) at 3 places; on
the input 0.11550 this yields 0.11550, 0.1155 and 0.116. -/
theorem process_value_two_stage_order :
    (∀ raw : ℚ,
      (process_value raw).raw_5dp = format_fixed raw 5 ∧
      (process_value raw).cut_4dp = truncate_to_decimals (process_value raw).raw_5dp 4 ∧
      (process_value raw).rounded_3dp = round_half_up (process_value raw).cut_4dp 3) ∧
    process_value 0.1155 = ⟨0.1155, 0.1155, 0.116⟩ := by
  constructor
  · intro raw
    exact ⟨rfl, rfl, rfl⟩
  · simp only [process_value, format_fixed, truncate_to_decimals, round_half_up,
      roundHalfEvenInt]
    norm_num [abs_of_nonneg]

/-- C7: `round_half_up` rounds exact ties away from zero and is
sign-symmetric: negating the input negates the output for every value
and decimal count, and 0.1245 at 3 decimals gives 0.125 while -0.1245
gives -0.125. -/
theorem round_half_up_sign_symmetric :
    (∀ (value : ℚ) (decimals : ℕ),
      round_half_up (-value) decimals = -(round_half_up value decimals)) ∧
    round_half_up 0.1245 3 = 0.125 ∧
    round_half_up (-0.1245) 3 = -0.125 := by
  refine ⟨?_, ?_, ?_⟩
  · intro v d
    simp only [round_half_up]
    rcases lt_trichotomy v 0 with h | h | h
    · rw [if_pos (by linarith : (0:ℚ) ≤ -v), if_neg (by linarith : ¬(0:ℚ) ≤ v), neg_neg]
    · subst h
      norm_num
    · rw [if_neg (by linarith : ¬(0:ℚ) ≤ -v), if_pos (by linarith : (0:ℚ) ≤ v), neg_neg]
  · simp only [round_half_up]
    norm_num
  · simp only [round_half_up]
    norm_num

/-- C8: truncation is idempotent — truncating an already truncated
value at the same number of decimals returns it unchanged. -/
theorem truncate_to_decimals_idempotent (x : ℚ) (n : ℕ) :
    truncate_to_decimals (truncate_to_decimals x n) n = truncate_to_decimals x n := by
  simp only [truncate_to_decimals]
  have hf : (0:ℚ) < 10 ^ n := by positivity
  have hm0 : (0:ℤ) ≤ ⌊|x| * 10 ^ n⌋ := Int.floor_nonneg.mpr (by positivity)
  by_cases hx : 0 ≤ x
  · have ht : (0:ℚ) ≤ (⌊|x| * 10 ^ n⌋ : ℚ) / 10 ^ n :=
      div_nonneg (by exact_mod_cast hm0) hf.le
    simp only [if_pos hx, mul_one, if_pos ht]
    rw [abs_of_nonneg ht, div_mul_cancel₀ _ (ne_of_gt hf), Int.floor_intCast]
  · simp only [if_neg hx]
    by_cases hm : ⌊|x| * 10 ^ n⌋ = 0
    · rw [hm]
      norm_num
    · have hmpos : (0:ℤ) < ⌊|x| * 10 ^ n⌋ := lt_of_le_of_ne hm0 (Ne.symm hm)
      have htpos : (0:ℚ) < (⌊|x| * 10 ^ n⌋ : ℚ) / 10 ^ n :=
        div_pos (by exact_mod_cast hmpos) hf
      have htneg : -((⌊|x| * 10 ^ n⌋ : ℚ) / 10 ^ n) < 0 := by linarith
      simp only [mul_neg_one, if_neg (not_le.mpr htneg)]
      rw [abs_neg,
        abs_of_nonneg (div_nonneg (by exact_mod_cast hm0) hf.le),
        div_mul_cancel₀ _ (ne_of_gt hf), Int.floor_intCast]

/-- C4 (code bug): for the standard 0.110 the value 0.1175 matches
none of the six bands, and instead of resolving to category 2 via the
nearest interior band center as the spec states, `classify_six_bins`
raises TypeError — the gap branch keys its `centers` dict by instances
of the unhashable `Category` dataclass, so the dict construction fails
before `min` runs. -/
theorem classify_six_bins_gap_raises :
    ¬((0.1175:ℚ) ≥ 0.110 + 0.008) ∧
    ¬((0.110:ℚ) + 0.003 ≤ 0.1175 ∧ (0.1175:ℚ) ≤ 0.110 + 0.007) ∧
    ¬((0.110:ℚ) - 0.002 ≤ 0.1175 ∧ (0.1175:ℚ) ≤ 0.110 + 0.002) ∧
    ¬((0.110:ℚ) - 0.007 ≤ 0.1175 ∧ (0.1175:ℚ) ≤ 0.110 - 0.003) ∧
    ¬((0.110:ℚ) - 0.012 ≤ 0.1175 ∧ (0.1175:ℚ) ≤ 0.110 - 0.008) ∧
    ¬((0.1175:ℚ) ≤ 0.110 - 0.013) ∧
    classify_six_bins 0.1175 0.110 =
      Except.error "TypeError: unhashable type: Category" := by
  refine ⟨by norm_num, by norm_num, by norm_num, by norm_num, by norm_num, by norm_num, ?_⟩
  simp only [classify_six_bins]
  norm_num

/-- C6 (code bug): `classify_six_bins` is not a total function on
categories — the value 0.1025 against the standard 0.110 falls in the
gap between bands 4 and 5, where the function raises TypeError
(unhashable `Category` dict keys) instead of returning one of the six
categories; no category result exists for that input. -/
theorem classify_six_bins_not_total :
    classify_six_bins 0.1025 0.110 =
      Except.error "TypeError: unhashable type: Category" ∧
    ∀ r : CategoryResult, classify_six_bins 0.1025 0.110 ≠ Except.ok r := by
  have h : classify_six_bins 0.1025 0.110 =
      Except.error "TypeError: unhashable type: Category" := by
    simp only [classify_six_bins]
    norm_num
  refine ⟨h, fun r hr => ?_⟩
  rw [h] at hr
  exact Except.noConfusion hr

/-- C1 counterexample: with `mode = "none"` and `value = None`,
`classify_value` returns verdict NONE ("Classification disabled"), not
UNKNOWN — the mode test precedes the None-value test, so the
None-value rule does not apply "regardless of mode". -/
theorem classify_value_none_mode_counterexample :
    classify_value none ⟨"none", "mm", ⟨"between", 0, 10⟩⟩ =
      ⟨"NONE", some "Classification disabled"⟩ ∧
    (classify_value none ⟨"none", "mm", ⟨"between", 0, 10⟩⟩).verdict ≠ "UNKNOWN" := by
  constructor
  · rfl
  · decide

/-- C1 (amended): for every configuration whose mode is not "none",
`classify_value` with `value = None` returns verdict UNKNOWN with
reason "No numeric value parsed"; when the mode is "none" the NONE /
"Classification disabled" rule takes precedence. -/
theorem classify_value_none_value_unknown (cfg : ClassificationConfig)
    (h : cfg.mode ≠ "none") :
    classify_value none cfg = ⟨"UNKNOWN", some "No numeric value parsed"⟩ := by
  simp only [classify_value, if_neg h]

/-- C1 witness: the amended rule at a concrete threshold-mode
configuration. -/
theorem classify_value_none_value_unknown_witness :
    ("threshold" : String) ≠ "none" ∧
    classify_value none ⟨"threshold", "mm", ⟨"between", 0, 10⟩⟩ =
      ⟨"UNKNOWN", some "No numeric value parsed"⟩ :=
  ⟨by decide,
   classify_value_none_value_unknown ⟨"threshold", "mm", ⟨"between", 0, 10⟩⟩ (by decide)⟩

/-- C2: `CsvLogger` defines only `__init__`, `__enter__`, `__exit__`
and the six-category write `log_categorized`; the plain `log` write
invoked by the read loops of `run.py` and `gui.py` is not among its
methods, so those calls raise (AttributeError) instead of writing a
row. -/
theorem csvLogger_log_method_missing :
    "log_categorized" ∈ CsvLogger.methods ∧
    CsvLogger.runLoopCallName ∉ CsvLogger.methods ∧
    CsvLogger.lookupMethod CsvLogger.runLoopCallName =
      Except.error "AttributeError: log" ∧
    CsvLogger.lookupMethod CsvLogger.guiWorkerCallName =
      Except.error "AttributeError: log" :=
  ⟨by decide, by decide, rfl, rfl⟩

/-- C5: opening the logger in append mode on a non-empty file does not
rewrite the header and resumes the index at (line count - 1) + 1:
writing 3 rows, closing, reopening in append mode and writing 2 more
rows yields data-row indices 1,2,3,4,5 and exactly one header line. -/
theorem csvLogger_append_resume :
    (let s3 := CsvLogger.log_categorized (CsvLogger.log_categorized
      (CsvLogger.log_categorized (CsvLogger.enter true []) none 3 "mm" "r" "a" "t1")
      none 3 "mm" "r" "b" "t2") none 3 "mm" "r" "c" "t3"
     let t0 := CsvLogger.enter true s3.lines
     let t2 := CsvLogger.log_categorized (CsvLogger.log_categorized t0
       none 3 "mm" "r" "d" "t4") none 3 "mm" "r" "e" "t5"
     (CsvLogger.enter true []).index = 1 ∧
     t0.index = 4 ∧
     t0.lines = s3.lines ∧
     dataIndices t2.lines = [1, 2, 3, 4, 5] ∧
     headerCount t2.lines = 1) := by
  decide

/-- C9: `parse_line` never raises for any device line, bytes or text —
when the trimmed text is non-empty but contains no decimal numeral
substring it returns a Measurement with `value = None` and the trimmed
text preserved as `raw`, an observable outcome rather than a failure. -/
theorem parse_line_no_number (expected_unit : Option String) (l : Line)
    (h1 : lineText l ≠ [])
    (h2 : numSearch (lineText l) = none) :
    ∃ m : Measurement, parse_line expected_unit l = some m ∧
      m.value = none ∧ m.raw = String.mk (lineText l) := by
  refine ⟨⟨String.mk (lineText l), none, none⟩, ?_, rfl, rfl⟩
  simp only [parse_line, if_neg h1, h2]

/-- C9 witness: the device line "NOREADING" parses to a Measurement
with no value and raw preserved. -/
theorem parse_line_no_number_witness :
    lineText (Line.text "NOREADING") ≠ [] ∧
    numSearch (lineText (Line.text "NOREADING")) = none ∧
    ∃ m : Measurement, parse_line none (Line.text "NOREADING") = some m ∧
      m.value = none ∧ m.raw = String.mk (lineText (Line.text "NOREADING")) :=
  ⟨by decide, by decide,
   parse_line_no_number none (Line.text "NOREADING") (by decide) (by decide)⟩

/-- C10: on the no-numeral branch the returned Measurement has
`unit = None` even when the parser was constructed with a non-None
expected unit — the expected-unit fallback only runs on the branch
where a numeral was found. -/
theorem parse_line_no_number_unit_none (u : String) (l : Line)
    (h1 : lineText l ≠ [])
    (h2 : numSearch (lineText l) = none) :
    parse_line (some u) l = some ⟨String.mk (lineText l), none, none⟩ := by
  simp only [parse_line, if_neg h1, h2]

/-- C10 witness: with expected unit "mm", the numeral-free line "ERR"
still yields `unit = None`. -/
theorem parse_line_no_number_unit_none_witness :
    lineText (Line.text "ERR") ≠ [] ∧
    numSearch (lineText (Line.text "ERR")) = none ∧
    parse_line (some "mm") (Line.text "ERR") = some ⟨"ERR", none, none⟩ := by
  refine ⟨by decide, by decide, ?_⟩
  rw [parse_line_no_number_unit_none "mm" (Line.text "ERR") (by decide) (by decide)]
  decide

end LSM
